import Mathlib

/-!
Shallow embedding of `src/life_expectancy/cleaning.py` (`clean_data`).

The input table is modelled after the pandas DataFrame read at line 25: a
header of year-column labels plus, per row, the composite-key cell and one
string cell per year column.  Machine floats of `pd.to_numeric` are modelled
as exact rationals (the claims only compare parses of identical digit
strings, never float arithmetic); pandas NaN cells are modelled by `""`,
which behaves identically downstream (kept by the `!= ": "` query, cleaned
to an absent value).
-/

namespace LifeExpectancy

/-- One row of the raw table: the `unit,sex,age,geo\time` composite-key cell
and one string cell per year column. -/
structure RawRow where
  key : String
  cells : List String
deriving DecidableEq, Repr

/-- The raw table: year-column labels (as read, before whitespace removal,
line 25) and the data rows. -/
structure RawTable where
  yearCols : List String
  rows : List RawRow
deriving DecidableEq, Repr

/-- A row of the melted frame (lines 41-46): the four split parts
(`unit`, `sex`, `age`, `region`; `none` models a NaN produced by
`str.split(',', expand=True)` padding short rows), the year label and the
raw value string. -/
structure MeltedRow where
  parts : List (Option String)
  year : String
  value : String
deriving DecidableEq, Repr

/-- A row of the cleaned output frame. -/
structure CleanedRow where
  unit : Option String
  sex : Option String
  age : Option String
  region : Option String
  year : ℤ
  value : Option ℚ
deriving DecidableEq, Repr

/-- Line 28: `columns.str.replace(' ', '')` — remove every space character. -/
def removeSpaces (s : String) : String := ⟨s.data.filter (fun c => c ≠ ' ')⟩

/-- Split a character list at every comma: the list of the (possibly empty)
segments between the commas. -/
def splitComma : List Char → List (List Char)
  | [] => [[]]
  | c :: rest =>
    if c = ',' then [] :: splitComma rest
    else
      match splitComma rest with
      | [] => [[c]]
      | h :: t => (c :: h) :: t

/-- Line 32: `str.split(',')` on the composite key — a plain (non-regex)
split on the comma character; `"a,b".split(',') = ["a","b"]`,
`"".split(',') = [""]`. -/
def splitParts (key : String) : List String :=
  (splitComma key.data).map (fun cs => ⟨cs⟩)

/-- Padding of `expand=True`: rows with fewer parts than the frame width
are padded with NaN; under the width-4 check this pads to exactly four
entries. -/
def padTo4 (ps : List String) : List (Option String) :=
  (ps.map some ++ List.replicate 4 none).take 4

/-- The number of columns produced by `str.split(',', expand=True)`:
the maximum split arity over the rows. -/
def maxSplitWidth (t : RawTable) : ℕ :=
  (t.rows.map (fun r => (splitParts r.key).length)).foldr max 0

/-- The `region` value a row acquires at line 31: the fourth split part,
NaN (= `none`) when the key splits into fewer than four parts. -/
def derivedRegion (r : RawRow) : Option String :=
  (padTo4 (splitParts r.key)).getD 3 none

/-- Line 38: keep the rows whose derived `region` equals `country_code`
(exact, case-sensitive; a NaN region never equals a string). -/
def matchedRows (t : RawTable) (code : String) : List RawRow :=
  t.rows.filter (fun r => derivedRegion r = some code)

/-- Lines 41-45: `pd.melt` of the filtered frame.  pandas melt stacks the
value columns one after the other, so the result is column-major: all
surviving rows for the first year column, then all of them for the second,
and so on.  Year labels had their spaces removed at line 28. -/
def meltStage (t : RawTable) (code : String) : List MeltedRow :=
  ((t.yearCols.map removeSpaces).enum).flatMap (fun yj =>
    (matchedRows t code).map (fun r =>
      { parts := padTo4 (splitParts r.key), year := yj.2,
        value := r.cells.getD yj.1 "" }))

/-- Line 46: `.query('value != ": "')` — drop exactly the rows whose raw
value string is the two-character sentinel. -/
def dropStage (l : List MeltedRow) : List MeltedRow :=
  l.filter (fun m => m.value ≠ ": ")

/-- The character class kept by the regex `[^0-9.^0-9]` at line 50: the
negated class contains the digits, the period and (because a `^` that is
not first in a class is literal) the caret. -/
def keepChar (c : Char) : Bool := c.isDigit || c == '.' || c == '^'

/-- Line 50: `str.replace(r'[^0-9.^0-9]', '', regex=True)`. -/
def stripValue (s : String) : String := ⟨s.data.filter keepChar⟩

/-- Value of a digit list read in base 10. -/
def digitsVal (cs : List Char) : ℕ :=
  cs.foldl (fun a c => 10 * a + (c.toNat - 48)) 0

/-- The rational `n / 10 ^ k`, built directly in lowest terms (the values
parsed here are all nonnegative decimals, so this is the exact value a
decimal literal with `k` fractional digits denotes). -/
def canonDecimal (n k : ℕ) : ℚ :=
  let d := 10 ^ k
  let g := Nat.gcd n d
  have hd : 0 < d := Nat.pos_pow_of_pos k (by omega)
  have hg : 0 < g := Nat.gcd_pos_of_pos_right n hd
  ⟨(n / g : ℕ), d / g,
    (Nat.div_pos (Nat.le_of_dvd hd (Nat.gcd_dvd_right n d)) hg).ne',
    by simpa using Nat.coprime_div_gcd_div_gcd hg⟩

/-- Lines 49-52: `pd.to_numeric(..., errors='coerce')` on a cleaned string.
On the post-strip alphabet (digits, period, caret) pandas parses exactly
the strings made of digits with at most one period and at least one digit;
anything else coerces to NaN (= `none`). -/
def parseNumeric (s : String) : Option ℚ :=
  if s.data.all (fun c => c.isDigit || c == '.') ∧ s.data.any (fun c => c.isDigit)
      ∧ s.data.count '.' ≤ 1 then
    some (canonDecimal
      (digitsVal (s.data.takeWhile (fun c => c != '.'))
          * 10 ^ ((s.data.dropWhile (fun c => c != '.')).drop 1).length
        + digitsVal ((s.data.dropWhile (fun c => c != '.')).drop 1))
      ((s.data.dropWhile (fun c => c != '.')).drop 1).length)
  else none

/-- The full value-cleaning step of lines 49-52: strip, then parse. -/
def cleanValue (s : String) : Option ℚ := parseNumeric (stripValue s)

/-- The whitespace characters CPython's integer parser strips from both
ends of the string (the `Py_UNICODE_ISSPACE` set: `0x09`-`0x0D`,
`0x1C`-`0x1F`, space, `0x85`, NBSP, Ogham space, `0x2000`-`0x200A`, line
and paragraph separators, `0x202F`, `0x205F`, ideographic space). -/
def pySpace (c : Char) : Bool :=
  let n := c.toNat
  decide ((9 ≤ n ∧ n ≤ 13) ∨ (28 ≤ n ∧ n ≤ 31) ∨ n = 32 ∨ n = 133 ∨ n = 160 ∨
    n = 5760 ∨ (8192 ≤ n ∧ n ≤ 8202) ∨ n = 8232 ∨ n = 8233 ∨ n = 8239 ∨
    n = 8287 ∨ n = 12288)

/-- Strip the Python whitespace from both ends of a character list. -/
def stripPySpace (cs : List Char) : List Char :=
  ((cs.dropWhile pySpace).reverse.dropWhile pySpace).reverse

/-- Continuation of `usDigits` after an accepted digit: further digits, with
single underscores allowed only between digits. -/
def usDigitsAux : List Char → Bool
  | [] => true
  | c :: rest =>
    if c.isDigit then usDigitsAux rest
    else if c == '_' then
      match rest with
      | [] => false
      | d :: rest2 => d.isDigit && usDigitsAux rest2
    else false

/-- A digit run as Python `int()` accepts it: at least one base-10 digit,
with single underscores permitted between digits (PEP 515) — so `"1_990"`
is accepted and `"_1"`, `"1_"`, `"1__0"` are not.  Digits are the ASCII
`0`-`9`; CPython also accepts other Unicode decimal digits, which the
theorems below exclude by an ASCII hypothesis where it matters. -/
def usDigits (cs : List Char) : Bool :=
  match cs with
  | [] => false
  | c :: rest => c.isDigit && usDigitsAux rest

/-- Python `int(str)`: optional surrounding whitespace, an optional single
`+` or `-` sign, then an underscore-grouped digit run; anything else is a
ValueError.  The underscores are dropped before reading the value. -/
def parseIntPy (s : String) : Option ℤ :=
  match stripPySpace s.data with
  | [] => none
  | c :: rest =>
    if c == '-' then
      if usDigits rest then
        some (-(digitsVal (rest.filter (fun x => x != '_')) : ℤ))
      else none
    else if c == '+' then
      if usDigits rest then
        some ((digitsVal (rest.filter (fun x => x != '_')) : ℤ))
      else none
    else if usDigits (c :: rest) then
      some ((digitsVal ((c :: rest).filter (fun x => x != '_')) : ℤ))
    else none

/-- Line 54: `astype(int)` on a year label — Python `int()` on the string,
followed by the conversion to a 64-bit integer: a value outside the int64
range raises OverflowError, which aborts the run through the same line as a
failed parse. -/
def parseYear (s : String) : Option ℤ :=
  match parseIntPy s with
  | none => none
  | some v => if -(2 ^ 63) ≤ v ∧ v ≤ 2 ^ 63 - 1 then some v else none

/-- The ValueError message of the multi-column assignment at lines 31-33. -/
def schemaError : String := "Columns must be same length as key"

/-- The error raised by `astype(int)` at line 54: the ValueError of a
non-integer literal (an OverflowError past int64 aborts through the same
line; the model does not distinguish the two messages, and no theorem
depends on this text). -/
def yearError : String := "invalid literal for int() with base 10"

/-- Lines 49-54 applied to one melted row: the four parts become the four
columns, the year label is parsed (total here; `clean_data` only uses it
after checking every surviving label parses) and the value is cleaned. -/
def cleanOfMelted (m : MeltedRow) : CleanedRow :=
  { unit := m.parts.getD 0 none, sex := m.parts.getD 1 none,
    age := m.parts.getD 2 none, region := m.parts.getD 3 none,
    year := (parseYear m.year).getD 0,
    value := cleanValue m.value }

/-- The routine `clean_data(country_code)` of lines 10-65, as a function of the table it
reads and the code: the multi-column assignment at lines 31-33 raises unless
the split frame is exactly four columns wide; then filter, melt, drop the
sentinel rows, clean the values, and convert the years (line 54), which
raises if any surviving label is not an integer literal. -/
def clean_data (t : RawTable) (code : String) : Except String (List CleanedRow) :=
  if maxSplitWidth t = 4 then
    if (dropStage (meltStage t code)).all (fun m => (parseYear m.year).isSome) then
      .ok ((dropStage (meltStage t code)).map cleanOfMelted)
    else .error yearError
  else .error schemaError

/-- The header written by `to_csv` at line 63: the melt id-vars of line 43
in order, then the `var_name` and `value_name` of lines 44-45. -/
def outputHeader : List String := ["unit", "sex", "age", "region", "year", "value"]

/-- The file written at line 63: header plus rows when the run succeeds
(`to_csv` writes the header even for an empty frame); nothing when an
exception aborted the run before line 63. -/
def persistedFile (t : RawTable) (code : String) :
    Option (List String × List CleanedRow) :=
  match clean_data t code with
  | .ok rows => some (outputHeader, rows)
  | .error _ => none

deriving instance DecidableEq for Except

/-- The number of cells, in the rows whose derived region matches the code,
whose raw string is exactly the sentinel `": "` (row by row, over the year
columns of the header). -/
def sentinelCellCount (t : RawTable) (code : String) : ℕ :=
  ((matchedRows t code).map (fun r =>
    (List.range t.yearCols.length).countP (fun j => r.cells.getD j "" = ": "))).sum

/-- Follows the spec's words for the value-cleaning step, for comparison
with `stripValue`: "strip every character that is not a digit or a decimal
point" — keeping digits and the period only, without the caret that the
source regex also keeps. -/
def specStripValue (s : String) : String :=
  ⟨s.data.filter (fun c => c.isDigit || c == '.')⟩

/-- The raw value strings that survive the sentinel filter, in output
order. -/
def survivingCells (t : RawTable) (code : String) : List String :=
  (dropStage (meltStage t code)).map (fun m => m.value)

/-- The output row order as the code produces it: grouped by year column in
header order, then by original input row within each year column, dropping
exactly the sentinel cells. -/
def perYearRows (t : RawTable) (code : String) : List CleanedRow :=
  ((t.yearCols.map removeSpaces).enum).flatMap (fun yj =>
    ((matchedRows t code).filter (fun r => r.cells.getD yj.1 "" ≠ ": ")).map (fun r =>
      { unit := (padTo4 (splitParts r.key)).getD 0 none,
        sex := (padTo4 (splitParts r.key)).getD 1 none,
        age := (padTo4 (splitParts r.key)).getD 2 none,
        region := (padTo4 (splitParts r.key)).getD 3 none,
        year := (parseYear yj.2).getD 0,
        value := cleanValue (r.cells.getD yj.1 "") }))

/-! ### Concrete tables and rows used by witnesses and counterexamples -/

/-- A one-row, one-year table for region `PT` whose cell carries a trailing
annotation (`"81 b"`). -/
def exTable1 : RawTable := ⟨["1990"], [⟨"YR,F,Y1,PT", ["81 b"]⟩]⟩

/-- The single cleaned row `clean_data` produces from `exTable1`. -/
def exOut1 : CleanedRow := ⟨some "YR", some "F", some "Y1", some "PT", 1990, some 81⟩

/-- The melted row behind `exOut1`. -/
def exMelted1 : MeltedRow :=
  ⟨[some "YR", some "F", some "Y1", some "PT"], "1990", "81 b"⟩

/-- Two rows and two years: the `PT` row has one sentinel cell, the `DE`
row does not match the filter. -/
def exTable2 : RawTable :=
  ⟨["1990", "1991"], [⟨"YR,F,Y1,PT", ["81", ": "]⟩, ⟨"YR,M,Y1,DE", ["70", "71"]⟩]⟩

/-- A table whose only cell contains a caret: the source regex keeps the
caret, so the parse fails and the value comes out absent. -/
def exTable3 : RawTable := ⟨["1990"], [⟨"YR,F,Y1,PT", ["8^12"]⟩]⟩

/-- A table with one well-formed row and one row whose composite key splits
into only three parts. -/
def exTable5 : RawTable :=
  ⟨["1990"], [⟨"YR,F,Y1,PT", ["81"]⟩, ⟨"YR,F,Y1", ["70"]⟩]⟩

/-- A table whose only year label is not an integer literal and whose only
row does not match the `PT` filter. -/
def exTable6 : RawTable := ⟨["19x0"], [⟨"YR,F,Y1,FR", ["81"]⟩]⟩

/-- A table whose only year label is not an integer literal and whose only
row does match the `PT` filter. -/
def exTable6b : RawTable := ⟨["19x0"], [⟨"YR,F,Y1,PT", ["81"]⟩]⟩

/-- Two matching rows and two year columns, to expose the output row
order. -/
def exTable7 : RawTable :=
  ⟨["1990", "1991"], [⟨"YR,F,Y1,PT", ["1", "2"]⟩, ⟨"YR,M,Y1,PT", ["3", "4"]⟩]⟩

/-- The four cleaned rows of `exTable7`: F row, year 1990. -/
def exOut7F0 : CleanedRow := ⟨some "YR", some "F", some "Y1", some "PT", 1990, some 1⟩

/-- The four cleaned rows of `exTable7`: M row, year 1990. -/
def exOut7M0 : CleanedRow := ⟨some "YR", some "M", some "Y1", some "PT", 1990, some 3⟩

/-- The four cleaned rows of `exTable7`: F row, year 1991. -/
def exOut7F1 : CleanedRow := ⟨some "YR", some "F", some "Y1", some "PT", 1991, some 2⟩

/-- The four cleaned rows of `exTable7`: M row, year 1991. -/
def exOut7M1 : CleanedRow := ⟨some "YR", some "M", some "Y1", some "PT", 1991, some 4⟩

/-- A table whose only composite key splits into two parts (and whose row
therefore matches no region code). -/
def exTable9 : RawTable := ⟨["1990"], [⟨"a,b", ["1"]⟩]⟩

/-! ### Helper lemmas -/

/-- Successful runs are exactly: four-wide split frame, every surviving year
label an integer literal, and the output the cleaned surviving rows. -/
theorem clean_data_ok_elim {t : RawTable} {code : String} {out : List CleanedRow}
    (h : clean_data t code = .ok out) :
    maxSplitWidth t = 4 ∧
      (dropStage (meltStage t code)).all (fun m => (parseYear m.year).isSome) = true ∧
      out = (dropStage (meltStage t code)).map cleanOfMelted := by
  unfold clean_data at h
  split at h
  · split at h
    · exact ⟨by assumption, by assumption, by injection h with h2; exact h2.symm⟩
    · exact absurd h (by simp)
  · exact absurd h (by simp)

/-- Every melted row carries the split parts of a row whose derived region
matched the filter, so its fourth part is the requested code. -/
theorem parts_of_mem_meltStage {t : RawTable} {code : String} {m : MeltedRow}
    (hm : m ∈ meltStage t code) : m.parts.getD 3 none = some code := by
  unfold meltStage at hm
  rcases List.mem_flatMap.1 hm with ⟨yj, -, hm2⟩
  rcases List.mem_map.1 hm2 with ⟨r, hr, rfl⟩
  simp only [matchedRows, List.mem_filter, decide_eq_true_eq] at hr
  simpa [derivedRegion] using hr.2

/-- If no row's derived region matches, the filtered frame is empty and so
is the melted frame. -/
theorem meltStage_eq_nil {t : RawTable} {code : String}
    (h : ∀ r ∈ t.rows, derivedRegion r ≠ some code) : meltStage t code = [] := by
  have hm : matchedRows t code = [] := by
    apply List.filter_eq_nil_iff.2
    intro r hr
    simpa using h r hr
  unfold meltStage
  rw [hm]
  simp

/-- Point-wise sums distribute over list sums. -/
theorem sum_map_add {β : Type} (J : List β) (f g : β → ℕ) :
    (J.map (fun b => f b + g b)).sum = (J.map f).sum + (J.map g).sum := by
  induction J with
  | nil => rfl
  | cons b J ih => simp only [List.map_cons, List.sum_cons, ih]; omega

/-- Double sums over two lists can be exchanged. -/
theorem sum_map_swap {α β : Type} (L : List α) (J : List β) (f : α → β → ℕ) :
    (L.map (fun a => (J.map (f a)).sum)).sum
      = (J.map (fun b => (L.map (fun a => f a b)).sum)).sum := by
  induction L with
  | nil =>
    simp only [List.map_nil, List.sum_nil]
    rw [List.map_const', List.sum_replicate]
    simp
  | cons a L ih =>
    simp only [List.map_cons, List.sum_cons, ih, sum_map_add]

/-- Counting as a sum of indicator values. -/
theorem countP_eq_sum_map {α : Type} (p : α → Bool) (l : List α) :
    l.countP p = (l.map (fun a => if p a then 1 else 0)).sum := by
  induction l with
  | nil => rfl
  | cons a l ih =>
    rw [List.countP_cons, List.map_cons, List.sum_cons, ih]
    omega

/-- Exchanging the iteration order of a double count. -/
theorem countP_sum_swap {α β : Type} (L : List α) (J : List β) (q : α → β → Bool) :
    (J.map (fun b => L.countP (fun a => q a b))).sum
      = (L.map (fun a => J.countP (fun b => q a b))).sum := by
  simp only [countP_eq_sum_map]
  exact (sum_map_swap L J (fun a b => if q a b then 1 else 0)).symm

/-- Dropping the sentinel rows removes exactly the sentinel count. -/
theorem length_dropStage (l : List MeltedRow) :
    (dropStage l).length = l.length - l.countP (fun m => m.value = ": ") := by
  induction l with
  | nil => rfl
  | cons m l ih =>
    have hle : l.countP (fun m => m.value = ": ") ≤ l.length :=
      List.countP_le_length _
    by_cases hv : m.value = ": "
    · have h1 : dropStage (m :: l) = dropStage l := by
        simp [dropStage, List.filter_cons, hv]
      have h2 : (m :: l).countP (fun m => m.value = ": ")
          = l.countP (fun m => m.value = ": ") + 1 := by
        simp [List.countP_cons, hv]
      rw [h1, h2, ih, List.length_cons]
      omega
    · have h1 : dropStage (m :: l) = m :: dropStage l := by
        simp [dropStage, List.filter_cons, hv]
      have h2 : (m :: l).countP (fun m => m.value = ": ")
          = l.countP (fun m => m.value = ": ") := by
        simp [List.countP_cons, hv]
      rw [h1, h2, List.length_cons, List.length_cons, ih]
      omega

/-- The melted frame has one row per matching row per year column. -/
theorem length_meltStage (t : RawTable) (code : String) :
    (meltStage t code).length = t.yearCols.length * (matchedRows t code).length := by
  rw [meltStage, List.flatMap_def, List.length_flatten, List.map_map]
  have : (((t.yearCols.map removeSpaces).enum).map
        (List.length ∘ fun yj => (matchedRows t code).map (fun r =>
          ({ parts := padTo4 (splitParts r.key), year := yj.2,
             value := r.cells.getD yj.1 "" } : MeltedRow))))
      = ((t.yearCols.map removeSpaces).enum).map
          (fun _ => (matchedRows t code).length) := by
    apply List.map_congr_left
    intro yj _
    simp [List.length_map]
  rw [this]
  simp [List.map_const', List.sum_replicate, smul_eq_mul]

/-- The sentinel cells of the melted frame, counted column by column, are
the sentinel cells of the matching rows, counted row by row. -/
theorem countP_sentinel_meltStage (t : RawTable) (code : String) :
    (meltStage t code).countP (fun m => m.value = ": ") = sentinelCellCount t code := by
  rw [meltStage, List.flatMap_def, sentinelCellCount]
  rw [List.countP_flatten, List.map_map]
  have h1 : (((t.yearCols.map removeSpaces).enum).map
        ((List.countP (fun m : MeltedRow => decide (m.value = ": "))) ∘
          fun yj => (matchedRows t code).map (fun r =>
            ({ parts := padTo4 (splitParts r.key), year := yj.2,
               value := r.cells.getD yj.1 "" } : MeltedRow))))
      = (((t.yearCols.map removeSpaces).enum).map Prod.fst).map
          (fun j => (matchedRows t code).countP
            (fun r => decide (r.cells.getD j "" = ": "))) := by
    rw [List.map_map]
    apply List.map_congr_left
    intro yj _
    simp only [Function.comp_apply, List.countP_map]
    rfl
  rw [h1, List.enum_map_fst, List.length_map]
  exact countP_sum_swap (matchedRows t code) (List.range t.yearCols.length)
    (fun r j => decide (r.cells.getD j "" = ": "))

/-! ### Claim theorems -/

/-- C1: every row of the table returned (and persisted) by `clean_data` has
its `region` field equal to the requested region code, under exact
case-sensitive string equality. -/
theorem region_filter_correct (t : RawTable) (code : String) (out : List CleanedRow)
    (h : clean_data t code = .ok out) :
    (∀ r ∈ out, r.region = some code) ∧
      persistedFile t code = some (outputHeader, out) := by
  obtain ⟨-, -, hout⟩ := clean_data_ok_elim h
  refine ⟨?_, by simp [persistedFile, h]⟩
  subst hout
  intro r hr
  rcases List.mem_map.1 hr with ⟨m, hm, rfl⟩
  simp only [dropStage, List.mem_filter] at hm
  simpa [cleanOfMelted] using parts_of_mem_meltStage hm.1

/-- C1 witness: a concrete run for region `PT`. -/
theorem region_filter_correct_witness :
    (∀ r ∈ [exOut1], r.region = some "PT") ∧
      persistedFile exTable1 "PT" = some (outputHeader, [exOut1]) :=
  region_filter_correct exTable1 "PT" [exOut1] (by decide)

/-- C8: the value-cleaning step is idempotent on its own output — a string
that already parses as a number (in particular the decimal rendering of a
cleaned value, which is made of digits and at most one period) is left
unchanged by the strip and parses to the same number again. -/
theorem value_cleaning_idempotent (s : String) (v : ℚ)
    (h : parseNumeric s = some v) : cleanValue s = some v := by
  have hall : s.data.all (fun c => c.isDigit || c == '.') = true := by
    unfold parseNumeric at h
    split at h
    · next hc => exact hc.1
    · exact absurd h (by simp)
  have hstrip : stripValue s = s := by
    unfold stripValue
    have : s.data.filter keepChar = s.data := by
      apply List.filter_eq_self.2
      intro c hc
      have := List.all_eq_true.1 hall c hc
      rcases Bool.or_eq_true_iff.1 this with h1 | h1 <;>
        simp [keepChar, h1]
    rw [this]
  unfold cleanValue
  rw [hstrip, h]

/-- C8 witness: re-cleaning the already-clean rendering `"81.2"`. -/
theorem value_cleaning_idempotent_witness :
    cleanValue "81.2" = some (canonDecimal 812 1) :=
  value_cleaning_idempotent "81.2" (canonDecimal 812 1) (by decide)

/-- C9 amended: for every input table whose composite keys split four-wide,
a region code matching no input row does not make `clean_data` fail — it
returns an empty table and the output file is still written, containing
only the header row. -/
theorem no_match_empty_output (t : RawTable) (code : String)
    (hw : maxSplitWidth t = 4)
    (h : ∀ r ∈ t.rows, derivedRegion r ≠ some code) :
    clean_data t code = .ok [] ∧ persistedFile t code = some (outputHeader, []) := by
  have hmelt := meltStage_eq_nil h
  have hok : clean_data t code = .ok [] := by
    unfold clean_data
    rw [if_pos hw, hmelt]
    simp [dropStage]
  exact ⟨hok, by simp [persistedFile, hok]⟩

/-- C9 counterexample: on a table whose only key splits into two parts, the
non-matching region code "PT" does not lead to an empty success — the run
fails with the schema error (raised before the filter) and nothing is
written, refuting the claim over arbitrary input tables. -/
theorem no_match_schema_cex :
    (∀ r ∈ exTable9.rows, derivedRegion r ≠ some "PT") ∧
      clean_data exTable9 "PT" = .error schemaError ∧
      persistedFile exTable9 "PT" = none :=
  ⟨by decide, by decide, by decide⟩

/-- C9 amended, witness: filtering a one-row table for a region it does not
contain. -/
theorem no_match_empty_output_witness :
    clean_data ⟨["1990"], [⟨"YR,F,Y1,DE", ["81"]⟩]⟩ "PT" = .ok [] ∧
      persistedFile ⟨["1990"], [⟨"YR,F,Y1,DE", ["81"]⟩]⟩ "PT" =
        some (outputHeader, []) :=
  no_match_empty_output ⟨["1990"], [⟨"YR,F,Y1,DE", ["81"]⟩]⟩ "PT" (by decide)
    (by decide)

/-- C10: `clean_data` is deterministic — two invocations on the same input
table and region code produce the same result and persist the same file. -/
theorem clean_data_deterministic (t₁ t₂ : RawTable) (c₁ c₂ : String)
    (ht : t₁ = t₂) (hc : c₁ = c₂) :
    clean_data t₁ c₁ = clean_data t₂ c₂ ∧
      persistedFile t₁ c₁ = persistedFile t₂ c₂ := by
  subst ht; subst hc; exact ⟨rfl, rfl⟩

/-- C2: the output row count equals the number of matching input rows times
the number of year columns, minus the number of sentinel (`": "`) cells in
the matching rows. -/
theorem row_count_law (t : RawTable) (code : String) (out : List CleanedRow)
    (h : clean_data t code = .ok out) :
    out.length
      = (matchedRows t code).length * t.yearCols.length - sentinelCellCount t code := by
  obtain ⟨-, -, hout⟩ := clean_data_ok_elim h
  subst hout
  rw [List.length_map, length_dropStage, length_meltStage,
    countP_sentinel_meltStage, Nat.mul_comm]

/-- C2 witness: one matching row with one sentinel cell out of two year
columns, and one non-matching row. -/
theorem row_count_law_witness :
    ([exOut1] : List CleanedRow).length
      = (matchedRows exTable2 "PT").length * exTable2.yearCols.length
        - sentinelCellCount exTable2 "PT" :=
  row_count_law exTable2 "PT" [exOut1] (by decide)

/-- C4: a melted row is dropped iff its raw value string is exactly the
two-character sentinel `": "`; a row with any other value string (another
sentinel, different trailing spaces, …) is not dropped at this stage — it
proceeds to value cleaning and yields a retained output row (whose value is
absent when the cleaned string does not parse). -/
theorem sentinel_drop_iff (t : RawTable) (code : String) (out : List CleanedRow)
    (h : clean_data t code = .ok out) (m : MeltedRow) (hm : m ∈ meltStage t code) :
    (m ∈ dropStage (meltStage t code) ↔ m.value ≠ ": ") ∧
      (m.value ≠ ": " → cleanOfMelted m ∈ out) := by
  obtain ⟨-, -, hout⟩ := clean_data_ok_elim h
  have hiff : m ∈ dropStage (meltStage t code) ↔ m.value ≠ ": " := by
    constructor
    · intro hk
      simp only [dropStage, List.mem_filter, decide_eq_true_eq] at hk
      exact hk.2
    · intro hv
      simp only [dropStage, List.mem_filter, decide_eq_true_eq]
      exact ⟨hm, hv⟩
  refine ⟨hiff, fun hv => ?_⟩
  subst hout
  exact List.mem_map_of_mem _ (hiff.2 hv)

/-- C4 witness: the non-sentinel cell of `exTable1` is kept. -/
theorem sentinel_drop_iff_witness :
    (exMelted1 ∈ dropStage (meltStage exTable1 "PT") ↔ exMelted1.value ≠ ": ") ∧
      (exMelted1.value ≠ ": " → cleanOfMelted exMelted1 ∈ [exOut1]) :=
  sentinel_drop_iff exTable1 "PT" [exOut1] (by decide) exMelted1 (by decide)

/-- C3 counterexample: the cell `"8^12"` refutes the claim that the code
strips every character that is not a digit or a decimal point — the source
regex `[^0-9.^0-9]` also keeps the caret, so the code leaves the value
absent where the claimed cleaning would produce the number 812. -/
theorem value_cleaning_spec_cex :
    clean_data exTable3 "PT"
        = .ok [⟨some "YR", some "F", some "Y1", some "PT", 1990, none⟩] ∧
      parseNumeric (specStripValue "8^12") = some 812 ∧
      (none : Option ℚ) ≠ some 812 :=
  ⟨by decide, by decide, by decide⟩

/-- C3 amended: for every raw cell string that survives the sentinel filter,
the output value is obtained by keeping every character that is a digit, a
decimal point, or a caret (the source regex preserves the caret as well) and
parsing the remainder; when that parse fails the value is absent. -/
theorem value_cleaning_amended (t : RawTable) (code : String) (out : List CleanedRow)
    (h : clean_data t code = .ok out) :
    out.map (fun r => r.value)
      = (survivingCells t code).map (fun s =>
          parseNumeric ⟨s.data.filter (fun c => c.isDigit || c == '.' || c == '^')⟩) := by
  obtain ⟨-, -, hout⟩ := clean_data_ok_elim h
  subst hout
  rw [survivingCells, List.map_map, List.map_map]
  rfl

/-- C3 amended, witness: the caret cell of `exTable3` comes out absent. -/
theorem value_cleaning_amended_witness :
    ([(⟨some "YR", some "F", some "Y1", some "PT", 1990, none⟩ : CleanedRow)]).map
        (fun r => r.value)
      = (survivingCells exTable3 "PT").map (fun s =>
          parseNumeric ⟨s.data.filter (fun c => c.isDigit || c == '.' || c == '^')⟩) :=
  value_cleaning_amended exTable3 "PT" _ (by decide)

/-- C5 counterexample: a table containing a three-part composite key next to
a four-part one does not abort — the run succeeds (refuting the claimed
schema error), and the malformed row is silently absent from the output. -/
theorem malformed_key_cex :
    clean_data exTable5 "PT"
      = .ok [⟨some "YR", some "F", some "Y1", some "PT", 1990, some 81⟩] := by
  decide

/-- C5 amended: the multi-column assignment aborts with the schema error
when the widest split differs from four columns; a row whose key splits into
fewer than four parts, sitting beside four-part rows, is instead padded with
missing fields, so its derived region matches no code and it contributes no
output row. -/
theorem malformed_key_amended (t : RawTable) (code : String) :
    (maxSplitWidth t ≠ 4 → clean_data t code = .error schemaError) ∧
      (∀ r ∈ t.rows, (splitParts r.key).length < 4 → r ∉ matchedRows t code) := by
  constructor
  · intro hw
    unfold clean_data
    rw [if_neg hw]
  · intro r _ hlen hmem
    have hreg : derivedRegion r = none := by
      rw [derivedRegion, padTo4]
      rcases hps : splitParts r.key with _ | ⟨a, tl⟩
      · rfl
      · rcases tl with _ | ⟨b, tl2⟩
        · rfl
        · rcases tl2 with _ | ⟨c, tl3⟩
          · rfl
          · rcases tl3 with _ | ⟨d, tl4⟩
            · rfl
            · exfalso
              rw [hps] at hlen
              simp at hlen
              omega
    simp only [matchedRows, List.mem_filter, decide_eq_true_eq] at hmem
    rw [hreg] at hmem
    exact Option.noConfusion hmem.2

/-- C5 amended, witness: the three-part row of `exTable5` never matches. -/
theorem malformed_key_amended_witness :
    (⟨"YR,F,Y1", ["70"]⟩ : RawRow) ∉ matchedRows exTable5 "PT" :=
  (malformed_key_amended exTable5 "PT").2 ⟨"YR,F,Y1", ["70"]⟩ (by decide) (by decide)

/-- C6 counterexample: a year label that is not an integer literal does NOT
abort the run when its column contributes no surviving row — here the only
row fails the region filter, so `astype(int)` sees an empty column, the run
succeeds, and the (empty) output file is still written. -/
theorem year_label_no_abort_cex :
    clean_data exTable6 "PT" = .ok [] ∧
      persistedFile exTable6 "PT" = some (outputHeader, []) :=
  ⟨by decide, by decide⟩

/-- C6 amended: when some SURVIVING melted row's year label — made of ASCII
characters, as the year labels of this dataset's header are — fails to
convert to a 64-bit integer (Python `int()` rejects it, or the value
overflows int64), the run aborts with an error and no output file is
written; a bad label whose column contributes no surviving row does not
abort.  (The ASCII hypothesis pins the transfer to the program: on ASCII
strings `parseYear` is exactly `int()` plus the int64 bound, while CPython
additionally accepts non-ASCII Unicode decimal digits.) -/
theorem year_label_amended (t : RawTable) (code : String)
    (h : ∃ m ∈ dropStage (meltStage t code),
      parseYear m.year = none ∧ m.year.data.all (fun c => c.toNat < 128)) :
    (∃ e, clean_data t code = .error e) ∧ persistedFile t code = none := by
  have hall : (dropStage (meltStage t code)).all
      (fun m => (parseYear m.year).isSome) = false := by
    rcases h with ⟨m, hm, hy, -⟩
    exact List.all_eq_false.2 ⟨m, hm, by simp [hy]⟩
  have herr : ∃ e, clean_data t code = .error e := by
    unfold clean_data
    by_cases hw : maxSplitWidth t = 4
    · refine ⟨yearError, ?_⟩
      rw [if_pos hw, hall]
      simp
    · exact ⟨schemaError, by rw [if_neg hw]⟩
  rcases herr with ⟨e, he⟩
  exact ⟨⟨e, he⟩, by simp [persistedFile, he]⟩

/-- C6 amended, witness: the bad label `"19x0"` backs a surviving row, so
the run aborts and nothing is persisted. -/
theorem year_label_amended_witness :
    (∃ e, clean_data exTable6b "PT" = .error e) ∧ persistedFile exTable6b "PT" = none :=
  year_label_amended exTable6b "PT"
    ⟨⟨[some "YR", some "F", some "Y1", some "PT"], "19x0", "81"⟩,
      by decide, by decide, by decide⟩

/-- C7 counterexample: with two matching rows and two year columns the
output is grouped by year column first (`pd.melt` stacks the value columns),
not by original input row as claimed — the claimed row-major order is a
different list. -/
theorem row_order_cex :
    clean_data exTable7 "PT" = .ok [exOut7F0, exOut7M0, exOut7F1, exOut7M1] ∧
      [exOut7F0, exOut7M0, exOut7F1, exOut7M1]
        ≠ [exOut7F0, exOut7F1, exOut7M0, exOut7M1] :=
  ⟨by decide, by decide⟩

/-- C7 amended: the persisted table has columns in the exact order `unit`,
`sex`, `age`, `region`, `year`, `value`, and its rows appear in the
deterministic order of the melt: grouped by year column in header order,
then by original input row within each year column, with no independent
sort. -/
theorem output_order_amended (t : RawTable) (code : String)
    (hdr : List String) (rows : List CleanedRow)
    (h : persistedFile t code = some (hdr, rows)) :
    hdr = ["unit", "sex", "age", "region", "year", "value"] ∧
      rows = perYearRows t code := by
  unfold persistedFile at h
  rcases hok : clean_data t code with out | out
  · rw [hok] at h
    exact Option.noConfusion h
  · rw [hok] at h
    injection h with h2
    injection h2 with hh hr
    refine ⟨hh.symm, ?_⟩
    obtain ⟨-, -, hout⟩ := clean_data_ok_elim hok
    rw [← hr, hout, perYearRows, dropStage, meltStage]
    rw [List.filter_flatMap, List.map_flatMap]
    congr 1
    funext yj
    rw [List.filter_map, List.map_map]
    rfl

/-- C7 amended, witness: the concrete order of `exTable7`'s output. -/
theorem output_order_amended_witness :
    outputHeader = ["unit", "sex", "age", "region", "year", "value"] ∧
      [exOut7F0, exOut7M0, exOut7F1, exOut7M1] = perYearRows exTable7 "PT" :=
  output_order_amended exTable7 "PT" outputHeader
    [exOut7F0, exOut7M0, exOut7F1, exOut7M1] (by decide)

/-- C10 witness: two runs on a concrete table and code. -/
theorem clean_data_deterministic_witness :
    clean_data ⟨["1990"], [⟨"YR,F,Y1,PT", ["81"]⟩]⟩ "PT" =
        clean_data ⟨["1990"], [⟨"YR,F,Y1,PT", ["81"]⟩]⟩ "PT" ∧
      persistedFile ⟨["1990"], [⟨"YR,F,Y1,PT", ["81"]⟩]⟩ "PT" =
        persistedFile ⟨["1990"], [⟨"YR,F,Y1,PT", ["81"]⟩]⟩ "PT" :=
  clean_data_deterministic _ _ "PT" "PT" rfl rfl

end LifeExpectancy
